import Mathlib

/-
  Verification of the AI-Mafia game engine and orchestrator.

  Shallow embedding of:
    - src/game/rules.py   (Role, Phase, PHASE_ORDER, MIN_PLAYERS)
    - src/game/state.py   (Player, Event, GameState, ...)
    - src/game/engine.py  (start_game, apply_night_actions, apply_vote, ...)
    - src/agents/orchestrator.py (run_night, run_discussion_turn, run_vote_turn, step_game)
    - src/api/models.py   (game_state_to_public)

  Conventions:
    - Python ints that are only ever incremented are Nat; where Python may go
      negative (round_index - 1 in game_state_to_public) we cast to Int.
    - Python `random` calls are modelled as explicit parameters: the
      discussion-order shuffle of apply_night_actions is a parameter
      `shuffle : Int → List String → List String` (seed, list); `random.choice`
      in orchestrator fallbacks is an oracle-supplied index.
    - LLM agent calls (`run_sync`) are modelled by an Oracle: each call either
      raises (CallResult.failed) or returns a result whose `.output` may be
      None (CallResult.ok (Option _)).
    - Python truthiness of an Optional[str] (`if x:`) is false for None and
      for the empty string; this is modelled explicitly where the code uses it.
    - Python dict `extra` fields carry only string-or-None values in this
      code base, modelled as `Option (List (String × Option String))`.
-/

set_option maxHeartbeats 1000000

namespace AIMafia

/-- Player roles (src/game/rules.py, class Role). -/
inductive Role where
  | villager
  | doctor
  | sheriff
  | mafia
deriving DecidableEq, Repr

/-- The .value of a Role (str Enum). -/
def Role.value : Role → String
  | .villager => "villager"
  | .doctor => "doctor"
  | .sheriff => "sheriff"
  | .mafia => "mafia"

/-- Game phases (src/game/rules.py, class Phase). -/
inductive Phase where
  | night
  | day_discussion
  | day_vote
deriving DecidableEq, Repr

/-- The .value of a Phase (str Enum). -/
def Phase.value : Phase → String
  | .night => "night"
  | .day_discussion => "day_discussion"
  | .day_vote => "day_vote"

/-- Minimum players to start (src/game/rules.py, MIN_PLAYERS). -/
def MIN_PLAYERS : Nat := 4

/-- A player (src/game/state.py, Player). -/
structure Player where
  id : String
  name : String
  role : Role
  alive : Bool := true
deriving DecidableEq, Repr

/-- Event kinds (src/game/state.py, EventKind). -/
inductive EventKind where
  | night_kill
  | night_protect
  | night_check
  | discussion
  | vote
  | eliminated
  | game_start
  | phase_change
deriving DecidableEq, Repr

/-- The .value of an EventKind (str Enum). -/
def EventKind.value : EventKind → String
  | .night_kill => "night_kill"
  | .night_protect => "night_protect"
  | .night_check => "night_check"
  | .discussion => "discussion"
  | .vote => "vote"
  | .eliminated => "eliminated"
  | .game_start => "game_start"
  | .phase_change => "phase_change"

/-- A game event (src/game/state.py, Event).  `extra` models the optional
Python dict, whose values here are strings or None. -/
structure Event where
  kind : EventKind
  round_index : Nat
  phase : Phase
  message : String
  player_id : Option String := none
  target_id : Option String := none
  extra : Option (List (String × Option String)) := none
deriving DecidableEq, Repr

/-- One day-discussion statement (src/game/state.py, DiscussionMessage). -/
structure DiscussionMessage where
  player_id : String
  player_name : String
  statement : String
  round_index : Nat
deriving DecidableEq, Repr

/-- One vote (src/game/state.py, VoteRecord). -/
structure VoteRecord where
  voter_id : String
  target_id : String
  reason : String
  round_index : Nat
deriving DecidableEq, Repr

/-- One mafia night-discussion message (src/game/state.py, MafiaDiscussionMessage). -/
structure MafiaDiscussionMessage where
  player_id : String
  player_name : String
  statement : String
  round_index : Nat
deriving DecidableEq, Repr

/-- One night-action reasoning record (src/game/state.py, NightReasoningRecord). -/
structure NightReasoningRecord where
  round_index : Nat
  role : String
  player_id : String
  player_name : String
  target_id : String
  target_name : String
  reason : String
deriving DecidableEq, Repr

/-- Collected night actions (src/game/state.py, NightActions). -/
structure NightActions where
  mafia_target_id : Option String := none
  doctor_target_id : Option String := none
  sheriff_target_id : Option String := none
deriving DecidableEq, Repr

/-- Full game state (src/game/state.py, GameState). -/
structure GameState where
  game_id : String
  players : List Player := []
  round_index : Nat := 0
  phase : Phase := .night
  events : List Event := []
  discussion : List DiscussionMessage := []
  vote_records : List VoteRecord := []
  round_summaries : List String := []
  discussion_order_index : Nat := 0
  discussion_order : List String := []
  vote_order : List String := []
  vote_order_index : Nat := 0
  mafia_discussion : List MafiaDiscussionMessage := []
  night_reasoning : List NightReasoningRecord := []
  game_seed : Option Int := none
  started : Bool := false
deriving DecidableEq, Repr

/-- GameState.get_alive_players. -/
def GameState.get_alive_players (s : GameState) : List Player :=
  s.players.filter (fun p => p.alive)

/-- GameState.get_player: first player with the given id, or none. -/
def GameState.get_player (s : GameState) (player_id : String) : Option Player :=
  s.players.find? (fun p => p.id == player_id)

/-- GameState.get_players_by_role: alive players with the given role. -/
def GameState.get_players_by_role (s : GameState) (role : Role) : List Player :=
  s.players.filter (fun p => p.alive && (p.role == role))

/-- Python truthiness of an Optional[str]: `if x:` is false for None and "". -/
def strTruthy : Option String → Bool
  | none => false
  | some s => s ≠ ""

/-- engine._next_phase: the cyclic successor in PHASE_ORDER
(night → day_discussion → day_vote → night). -/
def nextPhaseOf : Phase → Phase
  | .night => .day_discussion
  | .day_discussion => .day_vote
  | .day_vote => .night

/-- engine.start_game.  The failure case (ValueError on length mismatch) is an
`Except.error`.  The `rng` created from the seed in the source is never used. -/
def start_game (game_id : String) (player_names : List String)
    (role_assignments : List Role) (seed : Option Int) :
    Except String GameState :=
  if player_names.length ≠ role_assignments.length then
    .error "player_names and role_assignments must have same length"
  else
    let players : List Player :=
      ((player_names.zip role_assignments).enum).map
        (fun e => { id := "player_" ++ toString e.1, name := e.2.1, role := e.2.2, alive := true })
    let state : GameState :=
      { game_id := game_id, players := players, game_seed := seed, started := true }
    .ok { state with
          events := state.events ++
            [{ kind := .game_start, round_index := 0, phase := .night,
               message := "Game started with " ++ toString players.length ++ " players." }] }

/-- The "Validate targets" block of engine.apply_night_actions: each target
is dropped when not in the alive set (Python truthiness: None and "" skip the
drop check). -/
def sanitizeActions (alive_ids : List String) (actions0 : NightActions) : NightActions :=
  let actions1 :=
    if strTruthy actions0.mafia_target_id ∧ actions0.mafia_target_id.getD "" ∉ alive_ids then
      { actions0 with mafia_target_id := none }
    else actions0
  let actions2 :=
    if strTruthy actions1.doctor_target_id ∧ actions1.doctor_target_id.getD "" ∉ alive_ids then
      { actions1 with doctor_target_id := none }
    else actions1
  if strTruthy actions2.sheriff_target_id ∧ actions2.sheriff_target_id.getD "" ∉ alive_ids then
    { actions2 with sheriff_target_id := none }
  else actions2

/-- engine.apply_night_actions.  `shuffle` models `random.Random(seed).shuffle`:
it receives the seed `(game_seed or 0) + round_index * 1000` and the list of
alive ids, and returns the shuffled list. -/
def apply_night_actions (shuffle : Int → List String → List String)
    (state : GameState) (actions0 : NightActions) : GameState :=
  let alive := state.get_alive_players
  let alive_ids := alive.map (fun p => p.id)
  let actions := sanitizeActions alive_ids actions0
  -- Resolve kill: mafia kills target unless doctor protected them
  let killed_id : Option String :=
    if strTruthy actions.mafia_target_id then
      if actions.doctor_target_id = actions.mafia_target_id then none
      else actions.mafia_target_id
    else none
  let evKill : List Event :=
    if strTruthy actions.mafia_target_id then
      if actions.doctor_target_id = actions.mafia_target_id then
        [{ kind := .night_protect, round_index := state.round_index, phase := .night,
           message := "Doctor protected the mafia target; no one died." }]
      else
        [{ kind := .night_kill, round_index := state.round_index, phase := .night,
           message := "Mafia eliminated a player.", target_id := killed_id }]
    else []
  let evProtect : List Event :=
    if strTruthy actions.doctor_target_id ∧ killed_id = none then
      [{ kind := .night_protect, round_index := state.round_index, phase := .night,
         message := "Doctor protected a player.", target_id := actions.doctor_target_id }]
    else []
  let evCheck : List Event :=
    if strTruthy actions.sheriff_target_id then
      let target := state.get_player (actions.sheriff_target_id.getD "")
      let alignment := match target with
        | some t => if t.role = .mafia then "mafia" else "town"
        | none => "town"
      [{ kind := .night_check, round_index := state.round_index, phase := .night,
         message := "Sheriff investigated; result is " ++ alignment ++ ".",
         target_id := actions.sheriff_target_id,
         extra := some [("alignment", some alignment)] }]
    else []
  let state1 := { state with events := state.events ++ evKill ++ evProtect ++ evCheck }
  -- Apply death
  let state2 : GameState :=
    match killed_id with
    | some kid =>
        { state1 with players := state1.players.map (fun p : Player =>
            if p.id = kid then { id := p.id, name := p.name, role := p.role, alive := false }
            else p) }
    | none => state1
  -- Advance to day discussion; fix discussion order for this round
  let alive_after := state2.get_alive_players
  let order := alive_after.map (fun p => p.id)
  let seed : Int := (state2.game_seed.getD 0) + (state2.round_index : Int) * 1000
  { state2 with
    phase := .day_discussion,
    discussion_order_index := 0,
    discussion_order := shuffle seed order,
    events := state2.events ++
      [{ kind := .phase_change, round_index := state2.round_index, phase := .day_discussion,
         message := "Day " ++ toString (state2.round_index + 1) ++ " – discussion phase." }] }

/-- engine.add_mafia_discussion_message. -/
def add_mafia_discussion_message (state : GameState) (player_id player_name statement : String) :
    GameState :=
  { state with mafia_discussion := state.mafia_discussion ++
      [{ player_id := player_id, player_name := player_name, statement := statement,
         round_index := state.round_index }] }

/-- engine.add_night_reasoning. -/
def add_night_reasoning (state : GameState) (round_index : Nat)
    (role player_id player_name target_id target_name reason : String) : GameState :=
  { state with night_reasoning := state.night_reasoning ++
      [{ round_index := round_index, role := role, player_id := player_id,
         player_name := player_name, target_id := target_id, target_name := target_name,
         reason := reason }] }

/-- engine.add_discussion_message. -/
def add_discussion_message (state : GameState) (player_id player_name statement : String) :
    GameState :=
  { state with
    discussion := state.discussion ++
      [{ player_id := player_id, player_name := player_name, statement := statement,
         round_index := state.round_index }],
    discussion_order_index := state.discussion_order_index + 1 }

/-- engine.get_next_speaker. -/
def get_next_speaker (state : GameState) : Option Player :=
  if state.phase ≠ .day_discussion then none
  else if state.discussion_order = [] then none
  else if state.discussion_order_index ≥ state.discussion_order.length then none
  else state.get_player (state.discussion_order.getD state.discussion_order_index "")

/-- engine.append_discussion_speaker. -/
def append_discussion_speaker (state : GameState) (player_id : String) : GameState :=
  { state with discussion_order := state.discussion_order ++ [player_id] }

/-- engine.discussion_done. -/
def discussion_done (state : GameState) (max_discussion_turns : Option Nat) : Bool :=
  if state.discussion_order = [] then true
  else
    let round_messages := state.discussion.filter (fun m => m.round_index == state.round_index)
    match max_discussion_turns with
    | some cap => if round_messages.length ≥ cap then true
        else state.discussion_order_index ≥ state.discussion_order.length
    | none => state.discussion_order_index ≥ state.discussion_order.length

/-- First-occurrence deduplication: the key order of a Python set/Counter built
by insertion (used for `alive_ids = {p.id for p in alive}` and Counter keys). -/
def dedupFirst (ts : List String) : List String :=
  ts.foldl (fun acc t => if t ∈ acc then acc else acc ++ [t]) []

/-- collections.Counter over a list of strings: each distinct element (in
first-occurrence order) paired with its multiplicity. -/
def counterOf (ts : List String) : List (String × Nat) :=
  (dedupFirst ts).map (fun t => (t, ts.count t))

/-- `max(counts.values()) if counts else 0` (engine.apply_vote). -/
def maxVotesOf (counts : List (String × Nat)) : Nat :=
  (counts.map (fun c => c.2)).foldl max 0

/-- Recording loop of engine.apply_vote: fold one (voter, target, reason)
tuple into vote_records. -/
def recordOneVote (alive_ids : List String) (round_index : Nat)
    (recs : List VoteRecord) (v : String × String × String) : List VoteRecord :=
  if v.1 ∉ alive_ids then recs
  else if v.2.1 = "abstain" then
    recs ++ [{ voter_id := v.1, target_id := "abstain", reason := v.2.2,
               round_index := round_index }]
  else if v.2.1 ∈ alive_ids ∧ v.1 ≠ v.2.1 then
    recs ++ [{ voter_id := v.1, target_id := v.2.1, reason := v.2.2,
               round_index := round_index }]
  else recs

/-- The generator `(v.target_id for v in round_votes if v.target_id != "abstain")`
fed to Counter in engine.apply_vote. -/
def voteTargetsOf (round_votes : List VoteRecord) : List String :=
  (round_votes.map (fun v => v.target_id)).filter (fun t => t ≠ "abstain")

/-- `[tid for tid, c in counts.items() if c == max_votes]` in engine.apply_vote. -/
def tiedOf (counts : List (String × Nat)) (max_votes : Nat) : List String :=
  (counts.filter (fun c => c.2 == max_votes)).map (fun c => c.1)

/-- `if len(tied) == 1 and max_votes >= threshold: eliminated_id = tied[0]`
in engine.apply_vote. -/
def eliminatedIdOf (tied : List String) (max_votes threshold : Nat) : Option String :=
  match tied with
  | [t] => if max_votes ≥ threshold then some t else none
  | _ => none

/-- The vote_records list after the recording loop of engine.apply_vote,
restricted to the current round (`round_votes` in the source). -/
def recordedRoundVotes (state : GameState) (votes : List (String × String × String)) :
    List VoteRecord :=
  let alive_ids := dedupFirst (state.get_alive_players.map (fun p => p.id))
  (votes.foldl (recordOneVote alive_ids state.round_index) state.vote_records).filter
    (fun v => v.round_index == state.round_index)

/-- engine.apply_vote: count votes, eliminate majority target (or no one). -/
def apply_vote (state : GameState) (votes : List (String × String × String)) : GameState :=
  let alive := state.get_alive_players
  let alive_ids := dedupFirst (alive.map (fun p => p.id))
  let vrecs := votes.foldl (recordOneVote alive_ids state.round_index) state.vote_records
  let state1 : GameState := { state with vote_records := vrecs }
  let round_votes := vrecs.filter (fun v => v.round_index == state.round_index)
  if round_votes = [] then
    { state1 with
      phase := .night,
      round_index := state.round_index + 1,
      discussion_order_index := 0,
      events := state1.events ++
        [{ kind := .phase_change, round_index := state.round_index + 1, phase := .night,
           message := "No votes; night falls." }] }
  else
    let counts := counterOf (voteTargetsOf round_votes)
    let max_votes := maxVotesOf counts
    let tied := tiedOf counts max_votes
    -- threshold = math.ceil(0.51 * len(alive_ids)), embedded as the exact
    -- rational ceiling ⌈51·n/100⌉
    let threshold := (51 * alive_ids.length + 99) / 100
    let eliminated_id := eliminatedIdOf tied max_votes threshold
    -- Python `if eliminated_id:` is false for None and for ""
    let state2 : GameState :=
      match eliminated_id with
      | some eid =>
        if eid = "" then state1
        else
          let target := state1.get_player eid
          let name := match target with | some t => t.name | none => eid
          let roleVal : Option String := match target with
            | some t => some t.role.value
            | none => none
          { state1 with
            events := state1.events ++
              [{ kind := .eliminated, round_index := state.round_index, phase := .day_vote,
                 message := name ++ " was eliminated by vote.",
                 player_id := some eid,
                 extra := some [("role", roleVal)] }],
            players := state1.players.map (fun p : Player =>
              if p.id = eid then { id := p.id, name := p.name, role := p.role, alive := false }
              else p) }
      | none => state1
    { state2 with
      phase := .night,
      round_index := state.round_index + 1,
      discussion_order_index := 0,
      events := state2.events ++
        [{ kind := .phase_change, round_index := state.round_index + 1, phase := .night,
           message := "Night " ++ toString (state.round_index + 2) ++ "." }] }

/-- engine.next_phase. -/
def next_phase (state : GameState) : GameState :=
  let state1 : GameState := { state with phase := nextPhaseOf state.phase }
  if state1.phase = .night then
    { state1 with round_index := state1.round_index + 1 }
  else if state1.phase = .day_vote then
    { state1 with vote_order := state1.discussion_order.reverse, vote_order_index := 0 }
  else state1

/-- engine.get_next_voter. -/
def get_next_voter (state : GameState) : Option Player :=
  if state.phase ≠ .day_vote then none
  else if state.vote_order = [] then none
  else if state.vote_order_index ≥ state.vote_order.length then none
  else state.get_player (state.vote_order.getD state.vote_order_index "")

/-- engine.vote_phase_done. -/
def vote_phase_done (state : GameState) : Bool :=
  if state.vote_order = [] then true
  else state.vote_order_index ≥ state.vote_order.length

/-- engine.advance_vote_order_index. -/
def advance_vote_order_index (state : GameState) : GameState :=
  { state with vote_order_index := state.vote_order_index + 1 }

/-- engine.is_game_over. -/
def is_game_over (state : GameState) : Bool :=
  let alive := state.get_alive_players
  let mafia_alive := (alive.filter (fun p => p.role == Role.mafia)).length
  let town_alive := alive.length - mafia_alive
  mafia_alive == 0 || mafia_alive ≥ town_alive

/-- engine.get_winner. -/
def get_winner (state : GameState) : Option String :=
  if ¬ is_game_over state then none
  else
    let alive := state.get_alive_players
    let mafia_alive := (alive.filter (fun p => p.role == Role.mafia)).length
    if mafia_alive > 0 then some "mafia" else some "town"

/-- Result of one LLM agent call (`agent.run_sync`): either the call raised
(`failed`, caught by the orchestrator's except blocks), or it returned a
result whose `.output` may be None. -/
inductive CallResult (α : Type) where
  | failed
  | ok (output : Option α)
deriving DecidableEq, Repr

/-- agents/models.py DiscussionResponse. -/
structure DiscussionOut where
  statement : String
  request_another_turn : Bool := false
deriving DecidableEq, Repr

/-- agents/models.py NightActionResponse. -/
structure NightOut where
  target_id : String
  private_reason : Option String := none
deriving DecidableEq, Repr

/-- agents/models.py VoteResponse. -/
structure VoteOut where
  player_id : String
  reason : String
deriving DecidableEq, Repr

/-- External nondeterminism of one orchestrator step: the outcome of each
LLM agent call (keyed by acting player id where several may occur), and the
indices drawn by `random.choice` in the failure fallbacks. -/
structure Oracle where
  mafiaDiscussion : String → CallResult DiscussionOut
  mafiaAction : CallResult NightOut
  doctorAction : CallResult NightOut
  sheriffAction : CallResult NightOut
  discussionCall : String → CallResult DiscussionOut
  voteCall : String → CallResult VoteOut
  mafiaRand : Nat
  doctorRand : Nat
  sheriffRand : Nat

/-- orchestrator.run_night.  Returns (state, actions_dict, pending_human_ids);
the empty Python dict returned in the all-AI case is the all-none
NightActions. -/
def run_night (o : Oracle) (shuffle : Int → List String → List String)
    (state0 : GameState) (human : List String) :
    GameState × NightActions × List String :=
  let alive := state0.get_alive_players
  let alive_ids := alive.map (fun p => p.id)
  let mafia_players := state0.get_players_by_role .mafia
  let doctor_players := state0.get_players_by_role .doctor
  let sheriff_players := state0.get_players_by_role .sheriff
  -- When multiple mafia and all AI: one round of mafia discussion
  let state1 : GameState :=
    if mafia_players.length > 1 ∧ ¬ mafia_players.any (fun m => m.id ∈ human) then
      mafia_players.foldl (fun st m =>
        match o.mafiaDiscussion m.id with
        | .failed => add_mafia_discussion_message st m.id m.name "I defer to the group."
        | .ok out =>
          let stmt0 := ((out.map (fun d => d.statement)).getD "").trim
          let stmt := if stmt0 = "" then "I have no strong opinion." else stmt0
          add_mafia_discussion_message st m.id m.name stmt) state0
    else state0
  -- Mafia kill-target selection (first mafia)
  let mafiaStep : GameState × Option String × List String :=
    match mafia_players with
    | [] => (state1, none, [])
    | first_mafia :: _ =>
      if first_mafia.id ∈ human then (state1, none, [first_mafia.id])
      else
        let targets0 := alive_ids.filter (fun pid => pid ≠ first_mafia.id)
        let targets := if targets0 = [] then alive_ids else targets0
        let mafia_result : Option (Option NightOut) :=
          match o.mafiaAction with
          | .ok out => some out
          | .failed => none
        let mafia_target_id : Option String :=
          match o.mafiaAction with
          | .ok (some r) => if r.target_id ∈ alive_ids then some r.target_id else none
          | .ok none => none
          | .failed =>
            if targets ≠ [] then some (targets.getD (o.mafiaRand % targets.length) "")
            else none
        -- private_reason, with Python truthiness (None or "" fall back)
        let privReason : Option String :=
          match mafia_result with
          | some (some r) =>
            match r.private_reason with
            | some pr => if pr = "" then none else some pr
            | none => none
          | _ => none
        -- Single mafia: add one mafia_discussion message so spectate has content
        let st2 : GameState :=
          if mafia_players.length = 1 then
            let target_name :=
              if strTruthy mafia_target_id then
                match state1.get_player (mafia_target_id.getD "") with
                | some p => p.name
                | none => mafia_target_id.getD ""
              else "someone"
            let stmt := (privReason).getD ("Eliminating " ++ target_name ++ ".")
            add_mafia_discussion_message state1 first_mafia.id first_mafia.name stmt
          else state1
        -- Night reasoning for spectate (mafia decision)
        let st3 : GameState :=
          if strTruthy mafia_target_id then
            let tid := mafia_target_id.getD ""
            let target_name := match st2.get_player tid with
              | some p => p.name
              | none => tid
            add_night_reasoning st2 st2.round_index "Mafia" first_mafia.id first_mafia.name
              tid target_name (privReason.getD "")
          else st2
        (st3, mafia_target_id, [])
  let stateM := mafiaStep.1
  let mafia_target_id := mafiaStep.2.1
  let pending1 := mafiaStep.2.2
  -- Doctor
  let doctorStep : GameState × Option String × List String :=
    match doctor_players with
    | [] => (stateM, none, pending1)
    | doc :: _ =>
      if doc.id ∈ human then (stateM, none, pending1 ++ [doc.id])
      else
        let targets0 := alive_ids.filter (fun pid => pid ≠ doc.id)
        let targets := if targets0 = [] then alive_ids else targets0
        let doc_result : Option (Option NightOut) :=
          match o.doctorAction with
          | .ok out => some out
          | .failed => none
        let doctor_target_id : Option String :=
          match o.doctorAction with
          | .ok (some r) => if r.target_id ∈ alive_ids then some r.target_id else none
          | .ok none => none
          | .failed =>
            if targets ≠ [] then some (targets.getD (o.doctorRand % targets.length) "")
            else none
        let privReason : Option String :=
          match doc_result with
          | some (some r) =>
            match r.private_reason with
            | some pr => if pr = "" then none else some pr
            | none => none
          | _ => none
        let st2 : GameState :=
          if strTruthy doctor_target_id then
            let tid := doctor_target_id.getD ""
            let target_name := match stateM.get_player tid with
              | some p => p.name
              | none => tid
            add_night_reasoning stateM stateM.round_index "Doctor" doc.id doc.name
              tid target_name (privReason.getD "")
          else stateM
        (st2, doctor_target_id, pending1)
  let stateD := doctorStep.1
  let doctor_target_id := doctorStep.2.1
  let pending2 := doctorStep.2.2
  -- Sheriff (no fallback to alive_ids when targets empty: call is skipped)
  let sheriffStep : GameState × Option String × List String :=
    match sheriff_players with
    | [] => (stateD, none, pending2)
    | sher :: _ =>
      if sher.id ∈ human then (stateD, none, pending2 ++ [sher.id])
      else
        let targets := alive_ids.filter (fun pid => pid ≠ sher.id)
        let sher_result : Option (Option NightOut) :=
          if targets ≠ [] then
            match o.sheriffAction with
            | .ok out => some out
            | .failed => none
          else none
        let sheriff_target_id : Option String :=
          if targets ≠ [] then
            match o.sheriffAction with
            | .ok (some r) => if r.target_id ∈ alive_ids then some r.target_id else none
            | .ok none => none
            | .failed => some (targets.getD (o.sheriffRand % targets.length) "")
          else none
        let privReason : Option String :=
          match sher_result with
          | some (some r) =>
            match r.private_reason with
            | some pr => if pr = "" then none else some pr
            | none => none
          | _ => none
        let st2 : GameState :=
          if strTruthy sheriff_target_id then
            let tid := sheriff_target_id.getD ""
            let target_name := match stateD.get_player tid with
              | some p => p.name
              | none => tid
            add_night_reasoning stateD stateD.round_index "Sheriff" sher.id sher.name
              tid target_name (privReason.getD "")
          else stateD
        (st2, sheriff_target_id, pending2)
  let stateS := sheriffStep.1
  let sheriff_target_id := sheriffStep.2.1
  let pending := sheriffStep.2.2
  if pending ≠ [] then
    (stateS,
     { mafia_target_id := mafia_target_id, doctor_target_id := doctor_target_id,
       sheriff_target_id := sheriff_target_id },
     pending)
  else
    (apply_night_actions shuffle stateS
      { mafia_target_id := mafia_target_id, doctor_target_id := doctor_target_id,
        sheriff_target_id := sheriff_target_id },
     {}, [])

/-- orchestrator.run_discussion_turn. -/
def run_discussion_turn (o : Oracle) (state : GameState) (human : List String)
    (max_discussion_turns : Option Nat) : GameState × Option String :=
  match get_next_speaker state with
  | none => (state, none)
  | some speaker =>
    if speaker.id ∈ human then (state, some speaker.id)
    else
      let statement : String :=
        match o.discussionCall speaker.id with
        | .failed => "I have nothing to add."
        | .ok none => "I have nothing to add."
        | .ok (some out) =>
          if out.statement = "" then "I have nothing to add." else out.statement
      let request_another : Bool :=
        match o.discussionCall speaker.id with
        | .ok (some out) => out.request_another_turn
        | _ => false
      let new_state := add_discussion_message state speaker.id speaker.name statement
      match max_discussion_turns with
      | some cap =>
        if request_another then
          let round_messages :=
            new_state.discussion.filter (fun m => m.round_index == new_state.round_index)
          if round_messages.length < cap then
            (append_discussion_speaker new_state speaker.id, none)
          else (new_state, none)
        else (new_state, none)
      | none => (new_state, none)

/-- orchestrator.run_vote_turn. -/
def run_vote_turn (o : Oracle) (state : GameState)
    (votes_so_far : List (String × String × String)) (human : List String) :
    GameState × List (String × String × String) × List String :=
  let alive := state.get_alive_players
  let alive_ids := alive.map (fun p => p.id)
  if vote_phase_done state then (apply_vote state votes_so_far, [], [])
  else
    match get_next_voter state with
    | none => (apply_vote state votes_so_far, [], [])
    | some next_voter =>
      if next_voter.id ∈ human then (state, votes_so_far, [next_voter.id])
      else
        let votes_new :=
          match o.voteCall next_voter.id with
          | .ok (some out) =>
            let pid := out.player_id
            -- Python `result.output.reason or ""` is tested again by
            -- `reason or "Abstain"` below; reason is a required str field
            let reason := out.reason
            if pid = "abstain" then
              votes_so_far ++ [(next_voter.id, "abstain",
                                if reason = "" then "Abstain" else reason)]
            else if pid ≠ next_voter.id ∧ pid ∈ alive_ids then
              votes_so_far ++ [(next_voter.id, pid, reason)]
            else
              votes_so_far ++ [(next_voter.id, "abstain",
                                if reason = "" then "Abstain" else reason)]
          | .ok none => votes_so_far ++ [(next_voter.id, "abstain", "Abstain")]
          | .failed => votes_so_far ++ [(next_voter.id, "abstain", "Abstain")]
        let state_advanced := advance_vote_order_index state
        if vote_phase_done state_advanced then (apply_vote state_advanced votes_new, [], [])
        else (state_advanced, votes_new, [])

/-- The waiting_info dict returned by orchestrator.step_game (None-able keys
model keys absent from some of the dict literals). -/
structure Waiting where
  waiting_for_human : Bool
  current_actor_id : Option String
  pending_human_night_ids : List String
  pending_human_vote_ids : List String
  night_actions : Option NightActions := none
  pending_votes : Option (List (String × String × String)) := none
deriving DecidableEq, Repr

/-- orchestrator.step_game. -/
def step_game (o : Oracle) (shuffle : Int → List String → List String)
    (state : GameState) (human : List String) (max_discussion_turns : Option Nat)
    (pending_votes : List (String × String × String)) :
    GameState × Option Waiting :=
  if is_game_over state then (state, none)
  else match state.phase with
  | .night =>
    let r := run_night o shuffle state human
    let pending_night_ids := r.2.2
    if pending_night_ids ≠ [] then
      (state, some { waiting_for_human := true,
                     current_actor_id := pending_night_ids.head?,
                     pending_human_night_ids := pending_night_ids,
                     pending_human_vote_ids := [],
                     night_actions := some r.2.1 })
    else (r.1, none)
  | .day_discussion =>
    if discussion_done state max_discussion_turns then
      let state1 := next_phase state
      let r := run_vote_turn o state1 [] human
      if r.2.2 ≠ [] then
        (state1, some { waiting_for_human := true, current_actor_id := none,
                        pending_human_night_ids := [],
                        pending_human_vote_ids := r.2.2,
                        pending_votes := some r.2.1 })
      else (r.1, none)
    else
      let r := run_discussion_turn o state human max_discussion_turns
      match r.2 with
      | some wid =>
        (state, some { waiting_for_human := true, current_actor_id := some wid,
                       pending_human_night_ids := [], pending_human_vote_ids := [] })
      | none => (r.1, none)
  | .day_vote =>
    let r := run_vote_turn o state pending_votes human
    if r.2.2 ≠ [] then
      (r.1, some { waiting_for_human := true, current_actor_id := none,
                   pending_human_night_ids := [],
                   pending_human_vote_ids := r.2.2,
                   pending_votes := some r.2.1 })
    else if r.1.phase = .day_vote ∧ r.2.1 ≠ [] then
      (r.1, some { waiting_for_human := false, current_actor_id := none,
                   pending_human_night_ids := [], pending_human_vote_ids := [],
                   pending_votes := some r.2.1 })
    else (r.1, none)

/-- api/models.py PlayerPublic. -/
structure PlayerPublic where
  id : String
  name : String
  alive : Bool
  role : Option String := none
deriving DecidableEq, Repr

/-- api/models.py EventPublic. -/
structure EventPublic where
  kind : String
  round_index : Nat
  phase : String
  message : String
  player_id : Option String := none
  target_id : Option String := none
deriving DecidableEq, Repr

/-- api/models.py DiscussionMessagePublic (also covers MafiaDiscussionMessagePublic,
whose fields are identical). -/
structure DiscussionMessagePublic where
  player_id : String
  player_name : String
  statement : String
  round_index : Nat
deriving DecidableEq, Repr

/-- api/models.py NightReasoningPublic. -/
structure NightReasoningPublic where
  role : String
  player_name : String
  target_name : String
  reason : String
deriving DecidableEq, Repr

/-- api/models.py VotePublic. -/
structure VotePublic where
  voter_id : String
  voter_name : String
  target_id : String
  target_name : String
  reason : String
deriving DecidableEq, Repr

/-- api/models.py GameStateResponse. -/
structure GameStateResponse where
  game_id : String
  players : List PlayerPublic
  round_index : Nat
  phase : String
  events : List EventPublic
  discussion : List DiscussionMessagePublic
  started : Bool
  winner : Option String := none
  waiting_for_human : Bool := false
  current_actor_id : Option String := none
  pending_human_vote_ids : List String := []
  pending_human_night_ids : List String := []
  human_player_ids : List String := []
  current_round_votes : List VotePublic := []
  spectate : Bool := false
  spectator_mafia_discussion : List DiscussionMessagePublic := []
  spectator_night_reasoning : List NightReasoningPublic := []
deriving DecidableEq, Repr

/-- Python `{p.id: p.name for p in players}.get(pid, pid)`: name of the LAST
player with this id, else the id itself (a later dict insert overwrites). -/
def idToName (players : List Player) (pid : String) : String :=
  match (players.reverse).find? (fun p => p.id == pid) with
  | some p => p.name
  | none => pid

/-- api/models.py game_state_to_public. -/
def game_state_to_public (state : GameState)
    (waiting_for_human : Bool) (current_actor_id : Option String)
    (pending_human_vote_ids : Option (List String))
    (pending_human_night_ids : Option (List String))
    (human_player_ids : Option (List String))
    (pending_votes : Option (List (String × String × String)))
    (spectate : Bool) : GameStateResponse :=
  let players_public : List PlayerPublic :=
    state.players.map (fun p =>
      { id := p.id, name := p.name, alive := p.alive,
        role := if spectate ∨ p.alive = false then some p.role.value else none })
  let events_public : List EventPublic :=
    state.events.map (fun e =>
      { kind := e.kind.value, round_index := e.round_index, phase := e.phase.value,
        message := e.message, player_id := e.player_id, target_id := e.target_id })
  let discussion_public : List DiscussionMessagePublic :=
    state.discussion.map (fun m =>
      { player_id := m.player_id, player_name := m.player_name,
        statement := m.statement, round_index := m.round_index })
  let winner : Option String :=
    if state.started then
      if is_game_over state then get_winner state else none
    else none
  -- Current round votes: during day_vote use (truthy) pending_votes;
  -- otherwise last round's vote_records
  let current_round_votes_public : List VotePublic :=
    if state.phase = .day_vote ∧ (pending_votes.getD []) ≠ [] then
      (pending_votes.getD []).map (fun v =>
        { voter_id := v.1, voter_name := idToName state.players v.1,
          target_id := v.2.1,
          target_name := if v.2.1 = "abstain" then "Abstain" else idToName state.players v.2.1,
          reason := v.2.2 })
    else
      -- Python round_to_show may be -1 at round 0, so compare as Int
      let round_to_show : Int :=
        if state.phase ≠ .day_vote then (state.round_index : Int) - 1
        else (state.round_index : Int)
      (state.vote_records.filter (fun v => (v.round_index : Int) = round_to_show)).map
        (fun v =>
          { voter_id := v.voter_id, voter_name := idToName state.players v.voter_id,
            target_id := v.target_id,
            target_name := if v.target_id = "abstain" then "Abstain"
              else idToName state.players v.target_id,
            reason := v.reason })
  let spectator_mafia_discussion_public : List DiscussionMessagePublic :=
    if spectate ∧ state.mafia_discussion ≠ [] then
      state.mafia_discussion.map (fun m =>
        { player_id := m.player_id, player_name := m.player_name,
          statement := m.statement, round_index := m.round_index })
    else []
  let spectator_night_reasoning_public : List NightReasoningPublic :=
    if spectate ∧ state.night_reasoning ≠ [] then
      state.night_reasoning.map (fun r =>
        { role := r.role, player_name := r.player_name,
          target_name := r.target_name, reason := r.reason })
    else []
  { game_id := state.game_id,
    players := players_public,
    round_index := state.round_index,
    phase := state.phase.value,
    events := events_public,
    discussion := discussion_public,
    started := state.started,
    winner := winner,
    waiting_for_human := waiting_for_human,
    current_actor_id := current_actor_id,
    pending_human_vote_ids := pending_human_vote_ids.getD [],
    pending_human_night_ids := pending_human_night_ids.getD [],
    human_player_ids := human_player_ids.getD [],
    current_round_votes := current_round_votes_public,
    spectate := spectate,
    spectator_mafia_discussion := spectator_mafia_discussion_public,
    spectator_night_reasoning := spectator_night_reasoning_public }

/-- The guards at the top of api/main.py create_game (lines 138-141): reject
fewer than MIN_PLAYERS players, or num_mafia ≥ num_players.  The rest of the
endpoint is out of scope here. -/
def create_game_guard (num_players num_mafia : Nat) : Except String Unit :=
  if num_players < MIN_PLAYERS then
    .error ("At least " ++ toString MIN_PLAYERS ++ " players required")
  else if num_mafia ≥ num_players then
    .error "num_mafia must be less than num_players"
  else .ok ()

/-- Number of alive mafia players, as the spec words it (`m = |alive mafia|`). -/
def mafiaAliveCount (s : GameState) : Nat :=
  (s.players.filter (fun p => (p.role == Role.mafia) && p.alive)).length

/-- Number of alive non-mafia players, as the spec words it (`t = |alive non-mafia|`). -/
def townAliveCount (s : GameState) : Nat :=
  (s.players.filter (fun p => !(p.role == Role.mafia) && p.alive)).length

/-- A concrete game state shared by several witnesses: 4 players with roles
[villager, mafia, villager, villager], all alive, night phase. -/
def sampleNight : GameState :=
  { game_id := "g", started := true, phase := .night,
    players :=
      [{ id := "player_0", name := "A", role := .villager },
       { id := "player_1", name := "B", role := .mafia },
       { id := "player_2", name := "C", role := .villager },
       { id := "player_3", name := "D", role := .villager }] }

/-- sampleNight moved to the discussion phase with a fixed speaking order. -/
def sampleDiscussion : GameState :=
  { sampleNight with
    phase := .day_discussion,
    discussion_order := ["player_2", "player_0", "player_1", "player_3"] }

/-- A state where the mafia has been eliminated (town win). -/
def sampleTownWin : GameState :=
  { game_id := "g", started := true,
    players :=
      [{ id := "player_0", name := "A", role := .villager },
       { id := "player_1", name := "B", role := .mafia, alive := false }] }

/-- A state where mafia matches town (mafia win). -/
def sampleMafiaWin : GameState :=
  { game_id := "g", started := true,
    players :=
      [{ id := "player_0", name := "A", role := .villager },
       { id := "player_1", name := "B", role := .mafia }] }

/-- An identity shuffle used to instantiate the shuffle parameter in witnesses. -/
def idShuffle : Int → List String → List String := fun _ l => l

/-- The spec's doctor-save scenario: 5 players A/B/C/D/E with roles
[villager, mafia, doctor, sheriff, mafia]. -/
def sampleFive : GameState :=
  { game_id := "g", started := true, phase := .night,
    players :=
      [{ id := "player_0", name := "A", role := .villager },
       { id := "player_1", name := "B", role := .mafia },
       { id := "player_2", name := "C", role := .doctor },
       { id := "player_3", name := "D", role := .sheriff },
       { id := "player_4", name := "E", role := .mafia }] }

/-- Night actions where the doctor protects the mafia target (player_0). -/
def protectActions : NightActions :=
  { mafia_target_id := some "player_0", doctor_target_id := some "player_0" }

/-- An oracle whose every LLM call raises. -/
def oracleFail : Oracle :=
  { mafiaDiscussion := fun _ => .failed, mafiaAction := .failed, doctorAction := .failed,
    sheriffAction := .failed, discussionCall := fun _ => .failed, voteCall := fun _ => .failed,
    mafiaRand := 0, doctorRand := 0, sheriffRand := 0 }

/-- sampleNight moved to the vote phase with a fixed voting order. -/
def sampleVoteState : GameState :=
  { sampleNight with
    phase := .day_vote,
    vote_order := ["player_0", "player_1", "player_2", "player_3"],
    vote_order_index := 0 }

/-- The claim-side elimination condition over a list of target ids: x appears
among the targets, every other target has strictly fewer votes, and x's count
reaches the threshold. -/
def uniqueMaxTargetTs (ts : List String) (threshold : Nat) (x : String) : Prop :=
  x ∈ ts ∧ (∀ t ∈ ts, t ≠ x → ts.count t < ts.count x) ∧ threshold ≤ ts.count x

instance (ts : List String) (threshold : Nat) (x : String) :
    Decidable (uniqueMaxTargetTs ts threshold x) :=
  inferInstanceAs (Decidable (x ∈ ts ∧ (∀ t ∈ ts, t ≠ x → ts.count t < ts.count x)
    ∧ threshold ≤ ts.count x))

/-- The claim-side elimination condition for target x: among this round's
recorded non-abstain votes, x is the unique target with the maximum vote
count, and that count is at least the threshold. -/
def uniqueMaxTarget (round_votes : List VoteRecord) (threshold : Nat) (x : String) : Prop :=
  uniqueMaxTargetTs (voteTargetsOf round_votes) threshold x

instance (rv : List VoteRecord) (threshold : Nat) (x : String) :
    Decidable (uniqueMaxTarget rv threshold x) :=
  inferInstanceAs (Decidable (uniqueMaxTargetTs (voteTargetsOf rv) threshold x))

/-- C1 counterexample state: an alive player whose id is the empty string,
with two pre-recorded round-0 votes against that id. -/
def emptyIdState : GameState :=
  { game_id := "g", started := true, phase := .day_vote, round_index := 0,
    players :=
      [{ id := "", name := "Empty", role := .villager },
       { id := "p1", name := "Bob", role := .villager }],
    vote_records :=
      [{ voter_id := "p1", target_id := "", reason := "sus", round_index := 0 },
       { voter_id := "p2", target_id := "", reason := "sus", round_index := 0 }] }

/-- The "No votes; night falls." phase_change event apply_vote emits when no
vote was recorded this round. -/
def noVotesEvent (s : GameState) : Event :=
  { kind := .phase_change, round_index := s.round_index + 1, phase := .night,
    message := "No votes; night falls." }

/-- The regular night phase_change event apply_vote emits. -/
def nightEvent (s : GameState) : Event :=
  { kind := .phase_change, round_index := s.round_index + 1, phase := .night,
    message := "Night " ++ toString (s.round_index + 2) ++ "." }

/-- The eliminated event apply_vote emits for the eliminated id. -/
def eliminatedEvent (s : GameState) (eid : String) : Event :=
  { kind := .eliminated, round_index := s.round_index, phase := .day_vote,
    message := (match s.get_player eid with | some t => t.name | none => eid)
      ++ " was eliminated by vote.",
    player_id := some eid,
    extra := some [("role", match s.get_player eid with
      | some t => some t.role.value
      | none => none)] }

/-- Three votes against the mafia player_1 of sampleNight. -/
def elimVotes : List (String × String × String) :=
  [("player_0", "player_1", "r"), ("player_2", "player_1", "r"),
   ("player_3", "player_1", "r")]

section HelperLemmas

lemma filter_split_length {α : Type} (l : List α) (a p : α → Bool) :
    (l.filter (fun x => p x && a x)).length + (l.filter (fun x => !(p x) && a x)).length
      = (l.filter a).length := by
  induction l with
  | nil => rfl
  | cons x l ih =>
    by_cases ha : a x <;> by_cases hp : p x <;>
      simp [List.filter_cons, ha, hp] <;> omega

end HelperLemmas

/-- C3: for every state, with m the number of alive mafia and t the number of
alive non-mafia players, is_game_over is true iff m = 0 or m ≥ t; get_winner
is "town" when m = 0, and "mafia" when the game is over and m > 0. -/
theorem is_game_over_get_winner_spec (s : GameState) :
    (is_game_over s = true ↔
      (mafiaAliveCount s = 0 ∨ townAliveCount s ≤ mafiaAliveCount s))
    ∧ (mafiaAliveCount s = 0 → get_winner s = some "town")
    ∧ (is_game_over s = true → 0 < mafiaAliveCount s → get_winner s = some "mafia") := by
  have hm : (s.get_alive_players.filter (fun p => p.role == Role.mafia)).length
      = mafiaAliveCount s := by
    simp only [GameState.get_alive_players, List.filter_filter, mafiaAliveCount]
  have ht : mafiaAliveCount s + townAliveCount s = s.get_alive_players.length := by
    simp only [GameState.get_alive_players, mafiaAliveCount, townAliveCount]
    exact filter_split_length s.players (fun p => p.alive) (fun p => p.role == Role.mafia)
  constructor
  · rw [is_game_over]
    simp only [hm, Bool.or_eq_true, beq_iff_eq, decide_eq_true_eq]
    constructor
    · rintro (h0 | hge)
      · exact Or.inl h0
      · exact Or.inr (by omega)
    · rintro (h0 | hge)
      · exact Or.inl h0
      · exact Or.inr (by omega)
  · constructor
    · intro h0
      have hover : is_game_over s = true := by
        rw [is_game_over]
        simp only [hm, Bool.or_eq_true, beq_iff_eq, decide_eq_true_eq]
        exact Or.inl h0
      rw [get_winner]
      simp only [hover, not_true_eq_false, if_false, hm]
      simp [h0]
    · intro hover hpos
      rw [get_winner]
      simp only [hover, not_true_eq_false, if_false, hm]
      simp [hpos, Nat.pos_iff_ne_zero.mp hpos]

/-- Witness for is_game_over_get_winner_spec at concrete states. -/
theorem is_game_over_get_winner_spec_witness :
    get_winner sampleTownWin = some "town" ∧ get_winner sampleMafiaWin = some "mafia" :=
  ⟨(is_game_over_get_winner_spec sampleTownWin).2.1 (by decide),
   (is_game_over_get_winner_spec sampleMafiaWin).2.2 (by decide) (by decide)⟩

/-- C4: round_index is unchanged by apply_night_actions,
add_discussion_message, append_discussion_speaker and
advance_vote_order_index; apply_vote increments it by exactly one and moves
the phase to night; next_phase increments it by exactly one precisely when the
input phase is day_vote, which is precisely when it moves the phase to night. -/
theorem round_index_monotone_spec (shuffle : Int → List String → List String)
    (s : GameState) (a : NightActions) (votes : List (String × String × String))
    (pid pname stmt : String) :
    (apply_night_actions shuffle s a).round_index = s.round_index
    ∧ (add_discussion_message s pid pname stmt).round_index = s.round_index
    ∧ (append_discussion_speaker s pid).round_index = s.round_index
    ∧ (advance_vote_order_index s).round_index = s.round_index
    ∧ (apply_vote s votes).round_index = s.round_index + 1
    ∧ (apply_vote s votes).phase = Phase.night
    ∧ (next_phase s).round_index =
        (if s.phase = Phase.day_vote then s.round_index + 1 else s.round_index)
    ∧ ((next_phase s).phase = Phase.night ↔ s.phase = Phase.day_vote) := by
  refine ⟨?_, rfl, rfl, rfl, ?_, ?_, ?_, ?_⟩
  · rw [apply_night_actions]
    split <;> rfl
  · rw [apply_vote]
    split <;> rfl
  · rw [apply_vote]
    split <;> rfl
  · cases hp : s.phase <;> simp [next_phase, nextPhaseOf, hp]
  · cases hp : s.phase <;> simp [next_phase, nextPhaseOf, hp]

/-- C5: from day_discussion, next_phase enters day_vote with
vote_order = reverse of discussion_order and vote_order_index = 0, leaving
the discussion cursor, the player list and round_index unchanged. -/
theorem next_phase_from_discussion_spec (s : GameState)
    (h : s.phase = Phase.day_discussion) :
    (next_phase s).phase = Phase.day_vote
    ∧ (next_phase s).vote_order = s.discussion_order.reverse
    ∧ (next_phase s).vote_order_index = 0
    ∧ (next_phase s).discussion_order = s.discussion_order
    ∧ (next_phase s).discussion_order_index = s.discussion_order_index
    ∧ (next_phase s).players = s.players
    ∧ (next_phase s).round_index = s.round_index := by
  simp [next_phase, nextPhaseOf, h]

/-- Witness for next_phase_from_discussion_spec at a concrete state. -/
theorem next_phase_from_discussion_spec_witness :
    (next_phase sampleDiscussion).phase = Phase.day_vote
    ∧ (next_phase sampleDiscussion).vote_order
        = sampleDiscussion.discussion_order.reverse
    ∧ (next_phase sampleDiscussion).vote_order_index = 0 :=
  ⟨(next_phase_from_discussion_spec sampleDiscussion rfl).1,
   (next_phase_from_discussion_spec sampleDiscussion rfl).2.1,
   (next_phase_from_discussion_spec sampleDiscussion rfl).2.2.1⟩

/-- C9: start_game fails exactly when the names and roles lists differ in
length; any equal-length pair (even empty) yields a started state, so the
4-player minimum lives only in the create-game boundary guard. -/
theorem start_game_length_only_spec (g : String) (names : List String)
    (roles : List Role) (seed : Option Int) :
    ((∃ e, start_game g names roles seed = .error e) ↔ names.length ≠ roles.length)
    ∧ (names.length = roles.length →
        ∃ st, start_game g names roles seed = .ok st ∧ st.started = true)
    ∧ (∀ np nm : Nat, np < MIN_PLAYERS → ∃ e, create_game_guard np nm = .error e) := by
  refine ⟨⟨?_, ?_⟩, ?_, ?_⟩
  · rintro ⟨e, he⟩
    intro hlen
    rw [start_game] at he
    simp [hlen] at he
  · intro hlen
    exact ⟨"player_names and role_assignments must have same length",
      by rw [start_game, if_pos hlen]⟩
  · intro hlen
    have h2 : ¬ names.length ≠ roles.length := by omega
    rw [start_game, if_neg h2]
    exact ⟨_, rfl, rfl⟩
  · intro np nm hnp
    exact ⟨"At least " ++ toString MIN_PLAYERS ++ " players required",
      by rw [create_game_guard, if_pos hnp]⟩

/-- Witness for start_game_length_only_spec: empty lists start a game and a
3-player create request is rejected by the boundary guard. -/
theorem start_game_length_only_spec_witness :
    (∃ st, start_game "g" [] [] none = .ok st ∧ st.started = true)
    ∧ ∃ e, create_game_guard 3 1 = .error e :=
  ⟨(start_game_length_only_spec "g" [] [] none).2.1 rfl,
   (start_game_length_only_spec "g" [] [] none).2.2 3 1 (by decide)⟩

section HelperLemmas2

lemma mem_ite_singleton {α : Type} {e x : α} {c : Prop} [Decidable c]
    (h : e ∈ (if c then [x] else [])) : e = x := by
  split at h <;> simp_all

lemma map_kill_marks (l : List Player) (kid : String) :
    ∀ q ∈ l.map (fun p : Player =>
      if p.id = kid then { id := p.id, name := p.name, role := p.role, alive := false }
      else p), q.id = kid → q.alive = false := by
  intro q hq hqid
  simp only [List.mem_map] at hq
  obtain ⟨p, _, hfq⟩ := hq
  by_cases h : p.id = kid
  · rw [← hfq]
    simp [h]
  · rw [← hfq] at hqid
    simp [h] at hqid

lemma sanitize_mafia (ids : List String) (a : NightActions) :
    (sanitizeActions ids a).mafia_target_id =
      if strTruthy a.mafia_target_id ∧ a.mafia_target_id.getD "" ∉ ids then none
      else a.mafia_target_id := by
  simp only [sanitizeActions]
  by_cases h1 : strTruthy a.mafia_target_id ∧ a.mafia_target_id.getD "" ∉ ids <;>
  by_cases h2 : strTruthy a.doctor_target_id ∧ a.doctor_target_id.getD "" ∉ ids <;>
  by_cases h3 : strTruthy a.sheriff_target_id ∧ a.sheriff_target_id.getD "" ∉ ids <;>
  simp [h1, h2, h3]

lemma sanitize_doctor (ids : List String) (a : NightActions) :
    (sanitizeActions ids a).doctor_target_id =
      if strTruthy a.doctor_target_id ∧ a.doctor_target_id.getD "" ∉ ids then none
      else a.doctor_target_id := by
  simp only [sanitizeActions]
  by_cases h1 : strTruthy a.mafia_target_id ∧ a.mafia_target_id.getD "" ∉ ids <;>
  by_cases h2 : strTruthy a.doctor_target_id ∧ a.doctor_target_id.getD "" ∉ ids <;>
  by_cases h3 : strTruthy a.sheriff_target_id ∧ a.sheriff_target_id.getD "" ∉ ids <;>
  simp [h1, h2, h3]

lemma sanitize_sheriff (ids : List String) (a : NightActions) :
    (sanitizeActions ids a).sheriff_target_id =
      if strTruthy a.sheriff_target_id ∧ a.sheriff_target_id.getD "" ∉ ids then none
      else a.sheriff_target_id := by
  simp only [sanitizeActions]
  by_cases h1 : strTruthy a.mafia_target_id ∧ a.mafia_target_id.getD "" ∉ ids <;>
  by_cases h2 : strTruthy a.doctor_target_id ∧ a.doctor_target_id.getD "" ∉ ids <;>
  by_cases h3 : strTruthy a.sheriff_target_id ∧ a.sheriff_target_id.getD "" ∉ ids <;>
  simp [h1, h2, h3]

lemma night_msg_ne (n : Nat) :
    ("Night " ++ toString n ++ "." : String) ≠ "No votes; night falls." := by
  intro h
  have h2 := congrArg String.data h
  simp only [String.data_append] at h2
  simp only [List.cons_append, List.nil_append] at h2
  injection h2 with _ h3
  injection h3 with h4 _
  exact absurd h4 (by decide)

end HelperLemmas2

/-- C2: apply_night_actions first drops targets that are not alive, then
resolves the mafia kill: with a live mafia target, if the doctor target
differs the victim is marked not alive and a night_kill is emitted, and if the
doctor target matches no player dies and a night_protect (with the target) is
appended while no night_kill is; the resulting phase is day_discussion. -/
theorem apply_night_actions_kill_protect_spec
    (shuffle : Int → List String → List String) (s : GameState) (a : NightActions)
    (t : String) :
    (apply_night_actions shuffle s a).phase = Phase.day_discussion
    ∧ (a.mafia_target_id = some t → t ≠ "" →
       t ∈ s.get_alive_players.map (fun p => p.id) →
        ((a.doctor_target_id ≠ some t →
            (∀ q ∈ (apply_night_actions shuffle s a).players, q.id = t → q.alive = false)
            ∧ ∃ tail, (apply_night_actions shuffle s a).events = s.events ++ tail
               ∧ ∃ e ∈ tail, e.kind = EventKind.night_kill ∧ e.target_id = some t)
         ∧ (a.doctor_target_id = some t →
            (apply_night_actions shuffle s a).players = s.players
            ∧ ∃ tail, (apply_night_actions shuffle s a).events = s.events ++ tail
               ∧ (∃ e ∈ tail, e.kind = EventKind.night_protect ∧ e.target_id = some t)
               ∧ ∀ e ∈ tail, e.kind ≠ EventKind.night_kill)))
    ∧ (a.mafia_target_id = some t → t ∉ s.get_alive_players.map (fun p => p.id) →
        (apply_night_actions shuffle s a).players = s.players
        ∧ ∃ tail, (apply_night_actions shuffle s a).events = s.events ++ tail
           ∧ ∀ e ∈ tail, e.kind ≠ EventKind.night_kill) := by
  refine ⟨rfl, ?_, ?_⟩
  · intro ht htne halive
    constructor
    · intro hdoc
      have hsm : (sanitizeActions (s.get_alive_players.map (fun p => p.id)) a).mafia_target_id
          = some t := by
        rw [sanitize_mafia]
        simp [ht, halive]
      have hsd : (sanitizeActions (s.get_alive_players.map (fun p => p.id)) a).doctor_target_id
          ≠ some t := by
        rw [sanitize_doctor]
        split
        · simp
        · exact hdoc
      simp only [apply_night_actions, hsm]
      simp [hsd, htne, strTruthy]
      intro p _ hpid
      by_cases h : p.id = t
      · simp [h]
      · simp [h] at hpid
    · intro hdoc
      have hsm : (sanitizeActions (s.get_alive_players.map (fun p => p.id)) a).mafia_target_id
          = some t := by
        rw [sanitize_mafia]
        simp [ht, halive]
      have hsd : (sanitizeActions (s.get_alive_players.map (fun p => p.id)) a).doctor_target_id
          = some t := by
        rw [sanitize_doctor]
        simp [hdoc, halive]
      simp only [apply_night_actions, hsm, hsd]
      simp [htne, strTruthy]
      intro e he
      rcases he with ⟨_, rfl⟩ | rfl <;> simp
  · intro ht hdead
    by_cases h0 : t = ""
    · subst h0
      have hsm : (sanitizeActions (s.get_alive_players.map (fun p => p.id)) a).mafia_target_id
          = some "" := by
        rw [sanitize_mafia]
        simp [ht, strTruthy]
      simp only [apply_night_actions, hsm]
      simp [strTruthy]
      intro e he
      rcases he with ⟨_, rfl⟩ | ⟨_, rfl⟩ | rfl <;> simp
    · have hsm : (sanitizeActions (s.get_alive_players.map (fun p => p.id)) a).mafia_target_id
          = none := by
        rw [sanitize_mafia]
        simp [ht, strTruthy, h0, hdead]
      simp only [apply_night_actions, hsm]
      simp [strTruthy]
      intro e he
      rcases he with ⟨_, rfl⟩ | ⟨_, rfl⟩ | rfl <;> simp



/-- Witness for apply_night_actions_kill_protect_spec: the doctor-save
scenario ends with all players alive, phase day_discussion, a night_protect
event for player_0 and no night_kill. -/
theorem apply_night_actions_kill_protect_spec_witness :
    (apply_night_actions idShuffle sampleFive protectActions).phase = Phase.day_discussion
    ∧ (apply_night_actions idShuffle sampleFive protectActions).players = sampleFive.players
    ∧ ∃ tail, (apply_night_actions idShuffle sampleFive protectActions).events
        = sampleFive.events ++ tail
        ∧ (∃ e ∈ tail, e.kind = EventKind.night_protect ∧ e.target_id = some "player_0")
        ∧ ∀ e ∈ tail, e.kind ≠ EventKind.night_kill := by
  have h := apply_night_actions_kill_protect_spec idShuffle sampleFive protectActions "player_0"
  have h2 := (h.2.1 rfl (by decide) (by decide)).2 rfl
  exact ⟨h.1, h2.1, h2.2⟩

/-- C10: if at least one vote is recorded this round and every recorded vote
abstains, apply_vote eliminates no one, still advances to night with
round_index + 1, and emits the regular "Night k." phase_change, not the
distinct "No votes; night falls." branch. -/
theorem apply_vote_all_abstain_spec (s : GameState)
    (votes : List (String × String × String))
    (h1 : recordedRoundVotes s votes ≠ [])
    (h2 : ∀ v ∈ recordedRoundVotes s votes, v.target_id = "abstain") :
    (apply_vote s votes).players = s.players
    ∧ (apply_vote s votes).phase = Phase.night
    ∧ (apply_vote s votes).round_index = s.round_index + 1
    ∧ (apply_vote s votes).events = s.events ++
        [{ kind := .phase_change, round_index := s.round_index + 1, phase := .night,
           message := "Night " ++ toString (s.round_index + 2) ++ "." }]
    ∧ ("Night " ++ toString (s.round_index + 2) ++ "." : String)
        ≠ "No votes; night falls." := by
  have hts : voteTargetsOf (recordedRoundVotes s votes) = [] := by
    rw [voteTargetsOf, List.filter_eq_nil_iff]
    intro t htm
    simp only [List.mem_map] at htm
    obtain ⟨v, hv, rfl⟩ := htm
    simp [h2 v hv]
  simp only [recordedRoundVotes] at h1 h2 hts
  simp only [apply_vote]
  rw [if_neg h1]
  simp only [hts]
  have hc : tiedOf (counterOf []) (maxVotesOf (counterOf [])) = ([] : List String) := rfl
  rw [hc]
  exact ⟨rfl, trivial, trivial, rfl, night_msg_ne (s.round_index + 2)⟩

/-- Witness for apply_vote_all_abstain_spec at a concrete all-abstain vote. -/
theorem apply_vote_all_abstain_spec_witness :
    (apply_vote sampleNight [("player_0", "abstain", "no idea")]).players
        = sampleNight.players
    ∧ (apply_vote sampleNight [("player_0", "abstain", "no idea")]).phase = Phase.night
    ∧ (apply_vote sampleNight [("player_0", "abstain", "no idea")]).round_index
        = sampleNight.round_index + 1 :=
  have h := apply_vote_all_abstain_spec sampleNight [("player_0", "abstain", "no idea")]
    (by decide) (by decide)
  ⟨h.1, h.2.1, h.2.2.1⟩



/-- C6: when step_game pauses in the night phase because a night-acting
player is human, the returned state is exactly the input state. -/
theorem step_game_night_pause_frame (o : Oracle) (shuffle : Int → List String → List String)
    (s : GameState) (human : List String) (cap : Option Nat)
    (pv : List (String × String × String)) (hp : s.phase = Phase.night) (w : Waiting)
    (hw : (step_game o shuffle s human cap pv).2 = some w)
    (hpend : w.pending_human_night_ids ≠ []) :
    (step_game o shuffle s human cap pv).1 = s := by
  rw [step_game] at hw ⊢
  by_cases hov : is_game_over s = true
  · simp [hov] at hw
  · simp only [hov, Bool.false_eq_true, if_false, hp] at hw ⊢
    by_cases hpn : (run_night o shuffle s human).2.2 = []
    · simp [hpn] at hw
    · simp [hpn]

/-- Witness for step_game_night_pause_frame: the lone mafia (player_1) is
human, so the first step pauses and leaves the state untouched. -/
theorem step_game_night_pause_frame_witness :
    sampleNight.phase = Phase.night
    ∧ (step_game oracleFail idShuffle sampleNight ["player_1"] none []).2 =
        some { waiting_for_human := true, current_actor_id := some "player_1",
               pending_human_night_ids := ["player_1"], pending_human_vote_ids := [],
               night_actions := some {} }
    ∧ (step_game oracleFail idShuffle sampleNight ["player_1"] none []).1 = sampleNight :=
  ⟨rfl, by decide,
   step_game_night_pause_frame oracleFail idShuffle sampleNight ["player_1"] none []
     rfl { waiting_for_human := true, current_actor_id := some "player_1",
           pending_human_night_ids := ["player_1"], pending_human_vote_ids := [],
           night_actions := some {} } (by decide) (by decide)⟩

/-- C7 counterexample: when the vote decider raises, the appended fallback
vote is ("abstain", "Abstain"), whose reason is not the empty string the
claim asserts. -/
theorem run_vote_turn_fallback_reason_not_empty :
    (run_vote_turn oracleFail sampleVoteState [] []).2.1
      = [("player_0", "abstain", "Abstain")]
    ∧ ("Abstain" : String) ≠ "" :=
  ⟨by decide, by decide⟩

/-- C7 (amended): on a decider failure for an AI voter, run_vote_turn
recovers by appending the fallback vote (voter, "abstain", "Abstain") and
advancing the vote cursor; the game does not abort. -/
theorem run_vote_turn_decider_failure_spec (o : Oracle) (s : GameState)
    (votes : List (String × String × String)) (human : List String) (v : Player)
    (hv : get_next_voter s = some v) (hhum : v.id ∉ human)
    (hfail : o.voteCall v.id = .failed)
    (hmore : s.vote_order_index + 1 < s.vote_order.length) :
    run_vote_turn o s votes human =
      (advance_vote_order_index s, votes ++ [(v.id, "abstain", "Abstain")], []) := by
  have hv0 := hv
  rw [get_next_voter] at hv
  by_cases h1 : s.phase ≠ Phase.day_vote
  case pos => rw [if_pos h1] at hv; exact absurd hv (by simp)
  rw [if_neg h1] at hv
  by_cases h2 : s.vote_order = []
  case pos => rw [if_pos h2] at hv; exact absurd hv (by simp)
  rw [if_neg h2] at hv
  by_cases h3 : s.vote_order_index ≥ s.vote_order.length
  case pos => rw [if_pos h3] at hv; exact absurd hv (by simp)
  rw [if_neg h3] at hv
  · have hnd : vote_phase_done s = false := by
      rw [vote_phase_done, if_neg h2]
      simp
      omega
    have hnd2 : vote_phase_done (advance_vote_order_index s) = false := by
      simp only [advance_vote_order_index, vote_phase_done]
      rw [if_neg h2]
      simp
      omega
    rw [run_vote_turn]
    simp [hnd, hnd2, hv0, hhum, hfail]

/-- Witness for run_vote_turn_decider_failure_spec at a concrete failing call. -/
theorem run_vote_turn_decider_failure_spec_witness :
    run_vote_turn oracleFail sampleVoteState [] [] =
      (advance_vote_order_index sampleVoteState, [("player_0", "abstain", "Abstain")], []) :=
  run_vote_turn_decider_failure_spec oracleFail sampleVoteState [] []
    { id := "player_0", name := "A", role := .villager, alive := true }
    (by decide) (by decide) rfl (by decide)

lemma zip_map_self_forall {α β : Type} (l : List α) (f : α → β) (P : α → β → Prop)
    (h : ∀ a ∈ l, P a (f a)) : ∀ pr ∈ l.zip (l.map f), P pr.1 pr.2 := by
  induction l with
  | nil => intro pr hpr; simp at hpr
  | cons a l ih =>
    intro pr hpr
    rw [List.map_cons, List.zip_cons_cons] at hpr
    rcases List.mem_cons.mp hpr with h2 | h2
    · subst h2
      exact h a (List.mem_cons_self a l)
    · exact ih (fun x hx => h x (List.mem_cons_of_mem a hx)) pr h2

/-- C8: with spectate off, the public projection hides the role of every
alive player and exposes the role string of every dead player; with spectate
on, every role appears. -/
theorem game_state_to_public_roles_spec (s : GameState) (w : Bool) (c : Option String)
    (pv pn hp : Option (List String)) (pvs : Option (List (String × String × String))) :
    (∀ pr ∈ s.players.zip (game_state_to_public s w c pv pn hp pvs false).players,
       (pr.1.alive = true → pr.2.role = none)
       ∧ (pr.1.alive = false → pr.2.role = some pr.1.role.value))
    ∧ ∀ pr ∈ s.players.zip (game_state_to_public s w c pv pn hp pvs true).players,
       pr.2.role = some pr.1.role.value := by
  constructor
  · rw [show (game_state_to_public s w c pv pn hp pvs false).players
        = s.players.map (fun p : Player =>
            ({ id := p.id, name := p.name, alive := p.alive,
               role := if false ∨ p.alive = false then some p.role.value else none }
             : PlayerPublic)) from rfl]
    refine zip_map_self_forall s.players _
      (fun (a : Player) (b : PlayerPublic) => (a.alive = true → b.role = none)
        ∧ (a.alive = false → b.role = some a.role.value)) ?_
    intro a _
    constructor
    · intro ha
      simp [ha]
    · intro ha
      simp [ha]
  · rw [show (game_state_to_public s w c pv pn hp pvs true).players
        = s.players.map (fun p : Player =>
            ({ id := p.id, name := p.name, alive := p.alive,
               role := if true ∨ p.alive = false then some p.role.value else none }
             : PlayerPublic)) from rfl]
    refine zip_map_self_forall s.players _
      (fun (a : Player) (b : PlayerPublic) => b.role = some a.role.value) ?_
    intro a _
    simp

/-- Witness for game_state_to_public_roles_spec: in sampleTownWin the alive
villager's role is hidden and the dead mafia's role is exposed. -/
theorem game_state_to_public_roles_spec_witness :
    (∀ pr ∈ sampleTownWin.players.zip
        (game_state_to_public sampleTownWin false none none none none none false).players,
       (pr.1.alive = true → pr.2.role = none)
       ∧ (pr.1.alive = false → pr.2.role = some pr.1.role.value))
    ∧ ∀ pr ∈ sampleTownWin.players.zip
        (game_state_to_public sampleTownWin false none none none none none true).players,
       pr.2.role = some pr.1.role.value :=
  game_state_to_public_roles_spec sampleTownWin false none none none none none





section C1Helpers

lemma dedupFirst_go_mem (l : List String) (acc : List String) (x : String) :
    x ∈ l.foldl (fun acc t => if t ∈ acc then acc else acc ++ [t]) acc
      ↔ x ∈ acc ∨ x ∈ l := by
  induction l generalizing acc with
  | nil => simp
  | cons a l ih =>
    rw [List.foldl_cons]
    by_cases h : a ∈ acc
    · rw [if_pos h, ih]
      constructor
      · rintro (h2 | h2)
        · exact Or.inl h2
        · exact Or.inr (List.mem_cons_of_mem a h2)
      · rintro (h2 | h2)
        · exact Or.inl h2
        · rcases List.mem_cons.mp h2 with rfl | h3
          · exact Or.inl h
          · exact Or.inr h3
    · rw [if_neg h, ih]
      constructor
      · rintro (h2 | h2)
        · rcases List.mem_append.mp h2 with h3 | h3
          · exact Or.inl h3
          · exact Or.inr (List.mem_cons.mpr (Or.inl (List.mem_singleton.mp h3)))
        · exact Or.inr (List.mem_cons_of_mem a h2)
      · rintro (h2 | h2)
        · exact Or.inl (List.mem_append.mpr (Or.inl h2))
        · rcases List.mem_cons.mp h2 with rfl | h3
          · exact Or.inl (List.mem_append.mpr (Or.inr (List.mem_singleton.mpr rfl)))
          · exact Or.inr h3

lemma mem_dedupFirst (l : List String) (x : String) : x ∈ dedupFirst l ↔ x ∈ l := by
  rw [dedupFirst, dedupFirst_go_mem]
  simp

lemma dedupFirst_go_nodup (l : List String) (acc : List String) (h : acc.Nodup) :
    (l.foldl (fun acc t => if t ∈ acc then acc else acc ++ [t]) acc).Nodup := by
  induction l generalizing acc with
  | nil => exact h
  | cons a l ih =>
    rw [List.foldl_cons]
    by_cases h2 : a ∈ acc
    · rw [if_pos h2]
      exact ih acc h
    · rw [if_neg h2]
      refine ih (acc ++ [a]) ?_
      rw [List.nodup_append]
      exact ⟨h, List.nodup_singleton a,
        fun x hx hxa => h2 ((List.mem_singleton.mp hxa) ▸ hx)⟩

lemma nodup_dedupFirst (l : List String) : (dedupFirst l).Nodup :=
  dedupFirst_go_nodup l [] List.nodup_nil

lemma dedupFirst_go_eq (l : List String) (acc : List String)
    (hd : ∀ x ∈ acc, x ∉ l) (h : l.Nodup) :
    l.foldl (fun acc t => if t ∈ acc then acc else acc ++ [t]) acc = acc ++ l := by
  induction l generalizing acc with
  | nil => simp
  | cons a l ih =>
    rw [List.foldl_cons, if_neg (fun ha => hd a ha (List.mem_cons_self a l))]
    rw [ih (acc ++ [a]) ?_ (List.nodup_cons.mp h).2]
    · simp
    · intro x hx
      rcases List.mem_append.mp hx with h1 | h1
      · exact fun hm => hd x h1 (List.mem_cons_of_mem a hm)
      · rw [List.mem_singleton] at h1
        subst h1
        exact (List.nodup_cons.mp h).1

lemma dedupFirst_eq_self (l : List String) (h : l.Nodup) : dedupFirst l = l := by
  rw [dedupFirst, dedupFirst_go_eq l [] (by simp) h]
  simp

lemma le_foldl_max (l : List Nat) (a b : Nat) (h : b ∈ l ∨ b ≤ a) : b ≤ l.foldl max a := by
  induction l generalizing a with
  | nil =>
    rcases h with h | h
    · simp at h
    · exact h
  | cons c l ih =>
    rw [List.foldl_cons]
    rcases h with h | h
    · rcases List.mem_cons.mp h with rfl | h2
      · exact ih _ (Or.inr (le_max_right a b))
      · exact ih _ (Or.inl h2)
    · exact ih _ (Or.inr (le_trans h (le_max_left a c)))

lemma foldl_max_le (l : List Nat) (a m : Nat) (ha : a ≤ m) (h : ∀ b ∈ l, b ≤ m) :
    l.foldl max a ≤ m := by
  induction l generalizing a with
  | nil => exact ha
  | cons c l ih =>
    rw [List.foldl_cons]
    exact ih _ (max_le ha (h c (List.mem_cons_self c l)))
      (fun b hb => h b (List.mem_cons_of_mem c hb))

lemma filter_eq_singleton_of_unique {α : Type} (l : List α) (p : α → Bool)
    (x : α) (hnd : l.Nodup) (hx : x ∈ l) (hp : ∀ y ∈ l, p y = true ↔ y = x) :
    l.filter p = [x] := by
  induction l with
  | nil => simp at hx
  | cons a l ih =>
    rw [List.filter_cons]
    rcases List.mem_cons.mp hx with rfl | h2
    · rw [if_pos ((hp x (List.mem_cons_self x l)).mpr rfl)]
      have hnil : l.filter p = [] := by
        rw [List.filter_eq_nil_iff]
        intro b hb hpb
        have hbx := (hp b (List.mem_cons_of_mem x hb)).mp hpb
        subst hbx
        exact (List.nodup_cons.mp hnd).1 hb
      rw [hnil]
    · have ha : ¬ p a = true := by
        intro hpa
        have hax := (hp a (List.mem_cons_self a l)).mp hpa
        subst hax
        exact (List.nodup_cons.mp hnd).1 h2
      rw [if_neg ha]
      exact ih (List.nodup_cons.mp hnd).2 h2
        (fun y hy => hp y (List.mem_cons_of_mem a hy))

lemma find_self (l : List Player) (hnd : (l.map (fun p => p.id)).Nodup)
    (x : Player) (hx : x ∈ l) :
    l.find? (fun p => p.id == x.id) = some x := by
  induction l with
  | nil => simp at hx
  | cons a l ih =>
    rw [List.map_cons, List.nodup_cons] at hnd
    by_cases ha : a.id = x.id
    · have hax : a = x := by
        rcases List.mem_cons.mp hx with h2 | h2
        · exact h2.symm
        · exact absurd (ha ▸ List.mem_map_of_mem (fun p => p.id) h2) hnd.1
      subst hax
      rw [List.find?_cons_of_pos _ (by simp)]
    · rw [List.find?_cons_of_neg _ (by simp [ha])]
      refine ih hnd.2 ?_
      rcases List.mem_cons.mp hx with h2 | h2
      · exact absurd (by rw [h2]) ha
      · exact h2

lemma countP_zip_self (l : List Player) :
    ((l.zip l).countP (fun pr => !(pr.1.alive == pr.2.alive))) = 0 := by
  induction l with
  | nil => rfl
  | cons a l ih =>
    rw [List.zip_cons_cons, List.countP_cons]
    simp [ih]

lemma countP_zip_map_zero (l : List Player) (eid : String)
    (h : ∀ p ∈ l, p.id ≠ eid) :
    ((l.zip (l.map (fun p : Player =>
        if p.id = eid then { id := p.id, name := p.name, role := p.role, alive := false }
        else p))).countP (fun pr => !(pr.1.alive == pr.2.alive))) = 0 := by
  induction l with
  | nil => rfl
  | cons a l ih =>
    rw [List.map_cons, List.zip_cons_cons, List.countP_cons]
    rw [if_neg (h a (List.mem_cons_self a l))]
    simp [ih (fun p hp => h p (List.mem_cons_of_mem a hp))]

lemma countP_zip_map_kill (l : List Player) (eid : String)
    (hnd : (l.map (fun p => p.id)).Nodup) :
    ((l.zip (l.map (fun p : Player =>
        if p.id = eid then { id := p.id, name := p.name, role := p.role, alive := false }
        else p))).countP (fun pr => !(pr.1.alive == pr.2.alive))) ≤ 1 := by
  induction l with
  | nil => simp
  | cons a l ih =>
    rw [List.map_cons, List.nodup_cons] at hnd
    rw [List.map_cons, List.zip_cons_cons, List.countP_cons]
    by_cases ha : a.id = eid
    · have hz := countP_zip_map_zero l eid
        (fun p hp hpe => hnd.1 (by rw [← ha] at hpe; exact hpe ▸ List.mem_map_of_mem (fun q => q.id) hp))
      rw [if_pos ha, hz]
      split <;> omega
    · rw [if_neg ha]
      simpa using ih hnd.2

lemma uniqueMaxTargetTs_unique (ts : List String) (thr : Nat) (x y : String)
    (hx : uniqueMaxTargetTs ts thr x) (hy : uniqueMaxTargetTs ts thr y) : x = y := by
  by_contra hne
  have h1 := hx.2.1 y hy.1 (fun h => hne h.symm)
  have h2 := hy.2.1 x hx.1 hne
  omega

lemma tiedOf_counterOf (ts : List String) (mv : Nat) :
    tiedOf (counterOf ts) mv = (dedupFirst ts).filter (fun t => ts.count t == mv) := by
  rw [tiedOf, counterOf, List.filter_map, List.map_map]
  simp [Function.comp_def]

lemma count_le_maxVotes (ts : List String) (x : String) (hx : x ∈ ts) :
    ts.count x ≤ maxVotesOf (counterOf ts) := by
  rw [maxVotesOf]
  refine le_foldl_max _ 0 _ (Or.inl ?_)
  rw [counterOf, List.map_map]
  exact List.mem_map.mpr ⟨x, (mem_dedupFirst ts x).mpr hx, rfl⟩

lemma maxVotes_le (ts : List String) (m : Nat) (h : ∀ t ∈ ts, ts.count t ≤ m) :
    maxVotesOf (counterOf ts) ≤ m := by
  rw [maxVotesOf]
  refine foldl_max_le _ 0 m (Nat.zero_le m) ?_
  intro b hb
  rw [counterOf, List.map_map] at hb
  obtain ⟨t, htd, rfl⟩ := List.mem_map.mp hb
  exact h t ((mem_dedupFirst ts t).mp htd)

lemma tied_singleton_iff (ts : List String) (thr : Nat) (x : String) :
    (tiedOf (counterOf ts) (maxVotesOf (counterOf ts)) = [x]
      ∧ thr ≤ maxVotesOf (counterOf ts))
    ↔ uniqueMaxTargetTs ts thr x := by
  rw [uniqueMaxTargetTs, tiedOf_counterOf]
  constructor
  · rintro ⟨htied, hthr⟩
    have hxd : x ∈ (dedupFirst ts).filter (fun t => ts.count t == maxVotesOf (counterOf ts)) := by
      rw [htied]
      exact List.mem_singleton_self x
    rw [List.mem_filter] at hxd
    obtain ⟨hxdd, hxc⟩ := hxd
    have hxc2 : ts.count x = maxVotesOf (counterOf ts) := by simpa using hxc
    have hxts : x ∈ ts := (mem_dedupFirst ts x).mp hxdd
    refine ⟨hxts, ?_, ?_⟩
    · intro t ht htne
      have hle : ts.count t ≤ maxVotesOf (counterOf ts) := count_le_maxVotes ts t ht
      rcases lt_or_eq_of_le hle with hlt | heq
      · rw [hxc2]
        exact hlt
      · exfalso
        have hmem : t ∈ (dedupFirst ts).filter
            (fun t => ts.count t == maxVotesOf (counterOf ts)) :=
          List.mem_filter.mpr ⟨(mem_dedupFirst ts t).mpr ht, by simp [heq]⟩
        rw [htied] at hmem
        exact htne (List.mem_singleton.mp hmem)
    · rw [hxc2]
      exact hthr
  · rintro ⟨hxts, hmax, hthr⟩
    have hmv : maxVotesOf (counterOf ts) = ts.count x := by
      refine le_antisymm (maxVotes_le ts (ts.count x) ?_) (count_le_maxVotes ts x hxts)
      intro t ht
      by_cases he : t = x
      · subst he
        exact le_refl _
      · exact le_of_lt (hmax t ht he)
    constructor
    · rw [hmv]
      refine filter_eq_singleton_of_unique _ _ x (nodup_dedupFirst ts)
        ((mem_dedupFirst ts x).mpr hxts) ?_
      intro y hy
      constructor
      · intro hpy
        by_contra hne2
        have hy2 : y ∈ ts := (mem_dedupFirst ts y).mp hy
        have hlt := hmax y hy2 hne2
        have : ts.count y = ts.count x := by simpa using hpy
        omega
      · rintro rfl
        simp
    · rw [hmv]
      exact hthr

lemma eliminatedIdOf_eq_some_iff (ts : List String) (thr : Nat) (x : String) :
    eliminatedIdOf (tiedOf (counterOf ts) (maxVotesOf (counterOf ts)))
        (maxVotesOf (counterOf ts)) thr = some x
    ↔ uniqueMaxTargetTs ts thr x := by
  rw [← tied_singleton_iff]
  constructor
  · intro h
    rcases htied : tiedOf (counterOf ts) (maxVotesOf (counterOf ts)) with - | ⟨t0, - | ⟨t1, tl2⟩⟩
    · rw [htied] at h
      exact absurd h (by simp [eliminatedIdOf])
    · rw [htied] at h
      simp only [eliminatedIdOf] at h
      by_cases hth : maxVotesOf (counterOf ts) ≥ thr
      · rw [if_pos hth] at h
        obtain rfl := Option.some.inj h
        exact ⟨rfl, hth⟩
      · rw [if_neg hth] at h
        exact absurd h (by simp)
    · rw [htied] at h
      exact absurd h (by simp [eliminatedIdOf])
  · rintro ⟨htied, hthr⟩
    rw [htied]
    simp [eliminatedIdOf, hthr]

lemma apply_vote_empty_props (s : GameState) (votes : List (String × String × String))
    (hrv : recordedRoundVotes s votes = []) :
    (apply_vote s votes).players = s.players
    ∧ (apply_vote s votes).events = s.events ++ [noVotesEvent s] := by
  simp only [recordedRoundVotes] at hrv
  simp only [apply_vote]
  rw [if_pos hrv]
  exact ⟨rfl, rfl⟩

lemma apply_vote_none_props (s : GameState) (votes : List (String × String × String))
    (hrv : recordedRoundVotes s votes ≠ [])
    (heo : eliminatedIdOf
        (tiedOf (counterOf (voteTargetsOf (recordedRoundVotes s votes)))
          (maxVotesOf (counterOf (voteTargetsOf (recordedRoundVotes s votes)))))
        (maxVotesOf (counterOf (voteTargetsOf (recordedRoundVotes s votes))))
        ((51 * (dedupFirst (s.get_alive_players.map (fun p => p.id))).length + 99) / 100)
        = none) :
    (apply_vote s votes).players = s.players
    ∧ (apply_vote s votes).events = s.events ++ [nightEvent s] := by
  simp only [recordedRoundVotes] at hrv heo
  simp only [apply_vote]
  rw [if_neg hrv]
  simp only [heo]
  simp [nightEvent]

lemma apply_vote_empty_id_props (s : GameState) (votes : List (String × String × String))
    (hrv : recordedRoundVotes s votes ≠ [])
    (heo : eliminatedIdOf
        (tiedOf (counterOf (voteTargetsOf (recordedRoundVotes s votes)))
          (maxVotesOf (counterOf (voteTargetsOf (recordedRoundVotes s votes)))))
        (maxVotesOf (counterOf (voteTargetsOf (recordedRoundVotes s votes))))
        ((51 * (dedupFirst (s.get_alive_players.map (fun p => p.id))).length + 99) / 100)
        = some "") :
    (apply_vote s votes).players = s.players
    ∧ (apply_vote s votes).events = s.events ++ [nightEvent s] := by
  simp only [recordedRoundVotes] at hrv heo
  simp only [apply_vote]
  rw [if_neg hrv]
  simp only [heo]
  simp [nightEvent]

lemma apply_vote_elim_props (s : GameState) (votes : List (String × String × String))
    (eid : String) (hrv : recordedRoundVotes s votes ≠ [])
    (heo : eliminatedIdOf
        (tiedOf (counterOf (voteTargetsOf (recordedRoundVotes s votes)))
          (maxVotesOf (counterOf (voteTargetsOf (recordedRoundVotes s votes)))))
        (maxVotesOf (counterOf (voteTargetsOf (recordedRoundVotes s votes))))
        ((51 * (dedupFirst (s.get_alive_players.map (fun p => p.id))).length + 99) / 100)
        = some eid)
    (hne2 : eid ≠ "") :
    (apply_vote s votes).players = s.players.map (fun p : Player =>
        if p.id = eid then { id := p.id, name := p.name, role := p.role, alive := false }
        else p)
    ∧ (apply_vote s votes).events
        = (s.events ++ [eliminatedEvent s eid]) ++ [nightEvent s] := by
  simp only [recordedRoundVotes] at hrv heo
  simp only [apply_vote]
  rw [if_neg hrv]
  simp only [heo]
  rw [if_neg hne2]
  exact ⟨rfl, rfl⟩

end C1Helpers

/-- C1 (amended): for every state whose player ids are pairwise distinct and
non-empty, apply_vote eliminates at most one player, and it eliminates a
player x iff, among this round's recorded non-abstain votes, x's id is the
unique target with the maximum vote count and that count is at least
ceil(0.51 · number of alive players); on elimination x is marked not alive
and an eliminated event carrying x's role in extra is appended. -/
theorem apply_vote_elimination_spec (s : GameState)
    (votes : List (String × String × String))
    (hnodup : (s.players.map (fun p => p.id)).Nodup)
    (hne : ∀ p ∈ s.players, p.id ≠ "") :
    ((s.players.zip (apply_vote s votes).players).countP
        (fun pr => !(pr.1.alive == pr.2.alive)) ≤ 1)
    ∧ ∃ tail, (apply_vote s votes).events = s.events ++ tail
       ∧ ∀ x ∈ s.players,
          ((∃ e ∈ tail, e.kind = EventKind.eliminated ∧ e.player_id = some x.id)
            ↔ uniqueMaxTarget (recordedRoundVotes s votes)
                ((51 * s.get_alive_players.length + 99) / 100) x.id)
          ∧ (uniqueMaxTarget (recordedRoundVotes s votes)
                ((51 * s.get_alive_players.length + 99) / 100) x.id →
              (∀ q ∈ (apply_vote s votes).players, q.id = x.id → q.alive = false)
              ∧ ∃ e ∈ tail, e.kind = EventKind.eliminated ∧ e.player_id = some x.id
                 ∧ e.extra = some [("role", some x.role.value)]) := by
  have hAnodup : ((s.get_alive_players.map (fun p => p.id))).Nodup := by
    have hsub : (s.get_alive_players.map (fun p => p.id)).Sublist
        (s.players.map (fun p => p.id)) := by
      simp only [GameState.get_alive_players]
      exact List.Sublist.map _ (List.filter_sublist s.players)
    exact hsub.nodup hnodup
  have hded : dedupFirst (s.get_alive_players.map (fun p => p.id))
      = s.get_alive_players.map (fun p => p.id) := dedupFirst_eq_self _ hAnodup
  have hthr_eq :
      (51 * (dedupFirst (s.get_alive_players.map (fun p => p.id))).length + 99) / 100
      = (51 * s.get_alive_players.length + 99) / 100 := by
    rw [hded, List.length_map]
  by_cases hrv : recordedRoundVotes s votes = []
  · obtain ⟨hp, he⟩ := apply_vote_empty_props s votes hrv
    have hcond : ∀ y : String,
        ¬ uniqueMaxTarget (recordedRoundVotes s votes)
            ((51 * s.get_alive_players.length + 99) / 100) y := by
      intro y hy
      rw [hrv] at hy
      simp [uniqueMaxTarget, uniqueMaxTargetTs, voteTargetsOf] at hy
    refine ⟨?_, _, he, ?_⟩
    · rw [hp, countP_zip_self]
      omega
    · intro x hx
      refine ⟨⟨?_, ?_⟩, ?_⟩
      · rintro ⟨e, he2, hk, -⟩
        simp only [List.mem_singleton] at he2
        subst he2
        simp [noVotesEvent] at hk
      · intro hcnd
        exact absurd hcnd (hcond x.id)
      · intro hcnd
        exact absurd hcnd (hcond x.id)
  · rw [← hthr_eq]
    by_cases hex : ∃ x0 : String,
        uniqueMaxTargetTs (voteTargetsOf (recordedRoundVotes s votes))
          ((51 * (dedupFirst (s.get_alive_players.map (fun p => p.id))).length + 99) / 100)
          x0
    · obtain ⟨x0, hx0⟩ := hex
      have heo := (eliminatedIdOf_eq_some_iff
        (voteTargetsOf (recordedRoundVotes s votes)) _ x0).mpr hx0
      have hcond : ∀ x ∈ s.players,
          uniqueMaxTargetTs (voteTargetsOf (recordedRoundVotes s votes))
            ((51 * (dedupFirst (s.get_alive_players.map (fun p => p.id))).length + 99)
              / 100) x.id → x.id = x0 :=
        fun x _ hc => uniqueMaxTargetTs_unique _ _ _ _ hc hx0
      by_cases hx0e : x0 = ""
      · subst hx0e
        obtain ⟨hp, he⟩ := apply_vote_empty_id_props s votes hrv heo
        refine ⟨?_, _, he, ?_⟩
        · rw [hp, countP_zip_self]
          omega
        · intro x hx
          have hncond : ¬ uniqueMaxTargetTs (voteTargetsOf (recordedRoundVotes s votes))
              ((51 * (dedupFirst (s.get_alive_players.map (fun p => p.id))).length + 99)
                / 100) x.id :=
            fun hc => hne x hx (hcond x hx hc)
          refine ⟨⟨?_, ?_⟩, ?_⟩
          · rintro ⟨e, he2, hk, -⟩
            simp only [List.mem_singleton] at he2
            subst he2
            simp [nightEvent] at hk
          · intro hcnd
            exact absurd hcnd hncond
          · intro hcnd
            exact absurd hcnd hncond
      · obtain ⟨hp, he⟩ := apply_vote_elim_props s votes x0 hrv heo hx0e
        refine ⟨?_, [eliminatedEvent s x0, nightEvent s],
          by rw [he, List.append_assoc]; rfl, ?_⟩
        · rw [hp]
          exact countP_zip_map_kill s.players x0 hnodup
        · intro x hx
          refine ⟨⟨?_, ?_⟩, ?_⟩
          · rintro ⟨e, he2, hk, hpid⟩
            rcases List.mem_cons.mp he2 with rfl | he3
            · have hxid : x0 = x.id := by
                simpa [eliminatedEvent] using hpid
              rw [← hxid]
              exact hx0
            · simp only [List.mem_singleton] at he3
              subst he3
              simp [nightEvent] at hk
          · intro hcnd
            have hxeq : x.id = x0 := hcond x hx hcnd
            refine ⟨eliminatedEvent s x0, List.mem_cons_self _ _, rfl, ?_⟩
            simp [eliminatedEvent, hxeq]
          · intro hcnd
            have hxeq : x.id = x0 := hcond x hx hcnd
            constructor
            · rw [hp, ← hxeq]
              exact map_kill_marks s.players x.id
            · refine ⟨eliminatedEvent s x0, List.mem_cons_self _ _, rfl, ?_, ?_⟩
              · simp [eliminatedEvent, hxeq]
              · have hfind : s.get_player x0 = some x := by
                  rw [← hxeq]
                  simp only [GameState.get_player]
                  exact find_self s.players hnodup x hx
                simp [eliminatedEvent, hfind]
    · obtain ⟨hp, he⟩ := apply_vote_none_props s votes hrv (by
        rw [Option.eq_none_iff_forall_not_mem]
        intro y hy
        rw [Option.mem_def] at hy
        exact hex ⟨y, (eliminatedIdOf_eq_some_iff _ _ y).mp hy⟩)
      refine ⟨?_, _, he, ?_⟩
      · rw [hp, countP_zip_self]
        omega
      · intro x hx
        have hncond : ¬ uniqueMaxTargetTs (voteTargetsOf (recordedRoundVotes s votes))
            ((51 * (dedupFirst (s.get_alive_players.map (fun p => p.id))).length + 99)
              / 100) x.id :=
          fun hc => hex ⟨x.id, hc⟩
        refine ⟨⟨?_, ?_⟩, ?_⟩
        · rintro ⟨e, he2, hk, -⟩
          simp only [List.mem_singleton] at he2
          subst he2
          simp [nightEvent] at hk
        · intro hcnd
          exact absurd hcnd hncond
        · intro hcnd
          exact absurd hcnd hncond

/-- C1 counterexample (claim as stated): in emptyIdState the alive player
with id "" is the unique max-count target and meets the threshold, yet
apply_vote eliminates nobody and emits no eliminated event, because Python
`if eliminated_id:` is false for the empty string. -/
theorem apply_vote_truthiness_counterexample :
    ({ id := "", name := "Empty", role := .villager, alive := true } : Player)
      ∈ emptyIdState.players
    ∧ uniqueMaxTarget (recordedRoundVotes emptyIdState [])
        ((51 * emptyIdState.get_alive_players.length + 99) / 100) ""
    ∧ (apply_vote emptyIdState []).players = emptyIdState.players
    ∧ ∀ e ∈ (apply_vote emptyIdState []).events, e.kind ≠ EventKind.eliminated :=
  ⟨by decide, by decide, by decide, by decide⟩



/-- Witness for apply_vote_elimination_spec: with three of four votes against
player_1 (threshold ⌈0.51·4⌉ = 3), player_1 is marked not alive and an
eliminated event carrying the mafia role is appended. -/
theorem apply_vote_elimination_spec_witness :
    (∀ q ∈ (apply_vote sampleNight elimVotes).players,
        q.id = "player_1" → q.alive = false)
    ∧ ∃ tail, (apply_vote sampleNight elimVotes).events = sampleNight.events ++ tail
        ∧ ∃ e ∈ tail, e.kind = EventKind.eliminated ∧ e.player_id = some "player_1"
            ∧ e.extra = some [("role", some "mafia")] := by
  have h := apply_vote_elimination_spec sampleNight elimVotes (by decide) (by decide)
  obtain ⟨-, tail, hev, hall⟩ := h
  have hx := hall { id := "player_1", name := "B", role := .mafia, alive := true } (by decide)
  have hc := hx.2 (by decide)
  exact ⟨hc.1, tail, hev, hc.2⟩

end AIMafia
